import Mathlib

/-!
Verification of the `push` command of the clasp CLI (src/commands/push.ts).

The command pushes local project files to the remote store. Its core is:

* `confirmManifestUpdate` — the manifest gate's interactive confirmation:
  in a non-interactive environment it returns `false` without prompting.
* `onChange` — one sync cycle on a batch of changed paths: if a path whose
  base name is `appsscript.json` is in the batch and the force flag is not
  truthy, seek confirmation; on decline print `Skipping push.` and return
  `undefined` (modelled `Except.ok none`); otherwise push and report a
  pluralized count followed by one line per pushed file, returning `true`
  (modelled `Except.ok (some true)`).  A failing push propagates as a
  thrown error (modelled `Except.error`).
* `runWatchLoop` — the watch subscription: each delivered batch runs
  `onChange`; a falsy result calls `stopWatching` and no further batch is
  processed.
* `runCommand` — the whole command action: one initial cycle on the
  pending change set (its return value is discarded), the
  `Script is already up to date.` notice when that set is empty, then the
  subscription when `--watch` was given.

JavaScript's `boolean | undefined` force flag is `Option Bool`; its
truthiness is `truthy`.  Console output is collected as a list of lines;
the spinner text is rendering, not a console line, and is not collected.
-/

namespace ClaspPush

/-- Node's POSIX `path.basename`: strip trailing slashes, then keep the part
after the last slash (`"/"` for the root path, `""` for the empty path). -/
def basename (p : String) : String :=
  let cs := p.data
  let trimmed := (cs.reverse.dropWhile (fun c => c == '/')).reverse
  if trimmed.isEmpty then
    if cs.isEmpty then "" else "/"
  else
    ⟨(trimmed.reverse.takeWhile (fun c => c != '/')).reverse⟩

/-- The manifest file name the gate looks for (`'appsscript.json'`). -/
def manifestFileName : String := "appsscript.json"

/-- `paths.findIndex(p => path.basename(p) === 'appsscript.json') !== -1`. -/
def isManifestUpdated (paths : List String) : Bool :=
  paths.any (fun p => basename p == manifestFileName)

/-- Truthiness of the `boolean | undefined` force flag:
only `some true` is truthy. -/
def truthy : Option Bool → Bool
  | some true => true
  | _ => false

/-- The environment a cycle runs in: whether stdin is interactive
(`isInteractive()`), and what the user would answer to the overwrite
prompt if it were shown. -/
structure Env where
  interactive : Bool
  promptAnswer : Bool
deriving Repr, DecidableEq

/-- `confirmManifestUpdate()`: returns `false` without prompting when the
environment is non-interactive; otherwise prompts (default `false`) and
returns the user's answer.  The second component records whether the
interactive prompt was shown. -/
def confirmManifestUpdate (env : Env) : Bool × Bool :=
  if !env.interactive then (false, false)
  else (env.promptAnswer, true)

/-- One entry of the `PushResult` sequence returned by `clasp.files.push()`:
only its `localPath` is consumed (for reporting). -/
structure PushedFile where
  localPath : String
deriving Repr, DecidableEq

/-- One entry of `clasp.files.getChangedFiles()`: only its `localPath`
is consumed. -/
structure ChangedFile where
  localPath : String
deriving Repr, DecidableEq

/-- Rendering of the ICU success message
`Pushed {count, plural, =0 {no files.} one {one file.} other {# files}}.`:
the selected branch is wrapped between the literal `Pushed ` and the
closing period (so the `=0` and `one` branches end in a double period). -/
def pushedCountMessage (count : Nat) : String :=
  "Pushed "
    ++ (if count = 0 then "no files."
        else if count = 1 then "one file."
        else toString count ++ " files")
    ++ "."

/-- The per-file report line `console.log(`└─ ${f.localPath}`)`. -/
def fileLine (f : PushedFile) : String := "└─ " ++ f.localPath

instance {ε α : Type} [DecidableEq ε] [DecidableEq α] :
    DecidableEq (Except ε α) := fun a b =>
  match a, b with
  | .ok x, .ok y =>
      if h : x = y then .isTrue (by rw [h]) else .isFalse (by simp [h])
  | .error x, .error y =>
      if h : x = y then .isTrue (by rw [h]) else .isFalse (by simp [h])
  | .ok _, .error _ => .isFalse (by simp)
  | .error _, .ok _ => .isFalse (by simp)

/-- Observable outcome of one `onChange` cycle: the force flag after the
cycle, the console lines printed, whether the interactive prompt was
shown, whether `clasp.files.push()` was invoked, and the cycle's result —
`Except.error` when the push threw, otherwise the value the async
function returned (`none` for the bare `return`, `some true` for
`return true`). -/
structure CycleResult where
  force : Option Bool
  output : List String
  prompted : Bool
  pushInvoked : Bool
  ret : Except String (Option Bool)
deriving Repr, DecidableEq

/-- The tail of `onChange` from the `withSpinner` push call on: invoke the
push, and on success report the pluralized count and one line per pushed
file in the order returned. -/
def runPush (force : Option Bool) (prompted : Bool)
    (push : Except String (List PushedFile)) : CycleResult :=
  match push with
  | .error e =>
      { force := force, output := [], prompted := prompted,
        pushInvoked := true, ret := .error e }
  | .ok files =>
      { force := force,
        output := pushedCountMessage files.length :: files.map fileLine,
        prompted := prompted, pushInvoked := true, ret := .ok (some true) }

/-- One sync cycle (`onChange` in push.ts).  `push` is the outcome
`clasp.files.push()` would have if invoked in this cycle. -/
def onChange (env : Env) (force : Option Bool) (paths : List String)
    (push : Except String (List PushedFile)) : CycleResult :=
  if isManifestUpdated paths && !truthy force then
    let c := confirmManifestUpdate env
    if !c.1 then
      { force := some c.1, output := ["Skipping push."], prompted := c.2,
        pushInvoked := false, ret := .ok none }
    else
      runPush (some c.1) c.2 push
  else
    runPush force false push

/-- The continue/stop signal the watch callback extracts from a cycle:
`!(await onChange(paths))` stops on any falsy return.  A thrown error is
not a return at all. -/
def continueSignal (r : CycleResult) : Bool :=
  match r.ret with
  | .ok v => truthy v
  | .error _ => false

/-- One batch delivered by the watcher, together with the environment of
that moment and the outcome `clasp.files.push()` would have then. -/
structure WatchStep where
  paths : List String
  env : Env
  push : Except String (List PushedFile)
deriving Repr, DecidableEq

/-- Observable outcome of a watch subscription: the force flag when the
session ends, the console lines, how many delivered batches actually ran
`onChange`, whether `stopWatching()` was called by the callback, and a
push error that escaped the callback, if any. -/
structure WatchOutcome where
  force : Option Bool
  output : List String
  processed : Nat
  stopped : Bool
  err : Option String
deriving Repr, DecidableEq

/-- The watch subscription loop: each delivered batch runs `onChange`;
a falsy result calls `stopWatching()` so no further batch is processed;
a thrown push error escapes the callback unhandled. -/
def runWatchLoop (force : Option Bool) : List WatchStep → WatchOutcome
  | [] => { force := force, output := [], processed := 0,
            stopped := false, err := none }
  | step :: rest =>
      let r := onChange step.env force step.paths step.push
      match r.ret with
      | .error e =>
          { force := r.force, output := r.output, processed := 1,
            stopped := false, err := some e }
      | .ok v =>
          if truthy v then
            let w := runWatchLoop r.force rest
            { force := w.force, output := r.output ++ w.output,
              processed := 1 + w.processed, stopped := w.stopped,
              err := w.err }
          else
            { force := r.force, output := r.output, processed := 1,
              stopped := true, err := none }

/-- Everything the command action consumes: the flags, the pending change
set, the environment and push outcome of the initial cycle, and the
batches the watcher would deliver once subscribed. -/
structure CommandInput where
  watch : Bool
  force : Option Bool
  pendingChanges : List ChangedFile
  initEnv : Env
  initPush : Except String (List PushedFile)
  steps : List WatchStep
deriving Repr, DecidableEq

/-- Observable outcome of the whole command action: console lines, the
initial cycle's result when one ran, whether the watcher was subscribed,
the subscription's outcome when it was, and an error that aborted the
action, if any. -/
structure CommandOutcome where
  output : List String
  initCycle : Option CycleResult
  subscribed : Bool
  watchOutcome : Option WatchOutcome
  err : Option String
deriving Repr, DecidableEq

/-- The `push` command action: run one cycle on the pending change set when
it is non-empty (discarding its return value), print
`Script is already up to date.` when it is empty, then subscribe to the
watcher exactly when `--watch` was given. -/
def runCommand (inp : CommandInput) : CommandOutcome :=
  let afterInit :
      List String × Option CycleResult × Option Bool × Option String :=
    if inp.pendingChanges.length ≠ 0 then
      let r := onChange inp.initEnv inp.force
        (inp.pendingChanges.map (fun f => f.localPath)) inp.initPush
      match r.ret with
      | .error e => (r.output, some r, r.force, some e)
      | .ok _ => (r.output, some r, r.force, none)
    else
      (["Script is already up to date."], none, inp.force, none)
  match afterInit with
  | (out, init, _, some e) =>
      { output := out, initCycle := init, subscribed := false,
        watchOutcome := none, err := some e }
  | (out, init, force, none) =>
      if !inp.watch then
        { output := out, initCycle := init, subscribed := false,
          watchOutcome := none, err := none }
      else
        let w := runWatchLoop force inp.steps
        { output := out ++ w.output, initCycle := init, subscribed := true,
          watchOutcome := some w, err := w.err }

/-! ## General lemmas about one cycle -/

/-- A cycle on a batch with no manifest path goes straight to the push. -/
theorem onChange_no_manifest (env : Env) (force : Option Bool)
    (paths : List String) (push : Except String (List PushedFile))
    (h : isManifestUpdated paths = false) :
    onChange env force paths push = runPush force false push := by
  simp [onChange, h]

/-- A cycle with a truthy force flag goes straight to the push. -/
theorem onChange_force_truthy (env : Env) (force : Option Bool)
    (paths : List String) (push : Except String (List PushedFile))
    (h : truthy force = true) :
    onChange env force paths push = runPush force false push := by
  simp [onChange, h]

/-- A truthy force flag is left untouched by a cycle. -/
theorem onChange_force_truthy_unchanged (env : Env) (force : Option Bool)
    (paths : List String) (push : Except String (List PushedFile))
    (h : truthy force = true) :
    (onChange env force paths push).force = force := by
  rw [onChange_force_truthy env force paths push h]
  cases push <;> simp [runPush]

/-- C2: a batch with no manifest path, or a force flag already truthy, passes
the gate: the push is invoked, no interactive prompt is shown, and the force
flag is unchanged. -/
theorem C2_gate_passes_without_prompt (env : Env) (force : Option Bool)
    (paths : List String) (push : Except String (List PushedFile))
    (h : isManifestUpdated paths = false ∨ truthy force = true) :
    (onChange env force paths push).pushInvoked = true ∧
    (onChange env force paths push).prompted = false ∧
    (onChange env force paths push).force = force := by
  have hc : onChange env force paths push = runPush force false push := by
    rcases h with h | h
    · exact onChange_no_manifest env force paths push h
    · exact onChange_force_truthy env force paths push h
  cases push <;> simp [hc, runPush]

/-- C2 witness: the batch `["src/a.js"]` has no manifest path. -/
theorem C2_gate_passes_without_prompt_witness :
    (onChange ⟨true, false⟩ none ["src/a.js"] (Except.ok [])).pushInvoked = true ∧
    (onChange ⟨true, false⟩ none ["src/a.js"] (Except.ok [])).prompted = false ∧
    (onChange ⟨true, false⟩ none ["src/a.js"] (Except.ok [])).force = none :=
  C2_gate_passes_without_prompt ⟨true, false⟩ none ["src/a.js"] (Except.ok [])
    (Or.inl (by decide))

/-- C3: a manifest batch with a non-truthy force flag in a non-interactive
environment is declined without any prompt: no push, skip notice, falsy
return. -/
theorem C3_noninteractive_declines (env : Env) (force : Option Bool)
    (paths : List String) (push : Except String (List PushedFile))
    (h1 : isManifestUpdated paths = true) (h2 : truthy force = false)
    (h3 : env.interactive = false) :
    (onChange env force paths push).ret = Except.ok none ∧
    (onChange env force paths push).prompted = false ∧
    (onChange env force paths push).pushInvoked = false ∧
    (onChange env force paths push).output = ["Skipping push."] := by
  simp [onChange, h1, h2, confirmManifestUpdate, h3]

/-- C3 witness: manifest batch, unset force flag, non-interactive. -/
theorem C3_noninteractive_declines_witness :
    (onChange ⟨false, true⟩ none ["appsscript.json"] (Except.ok [])).ret
      = Except.ok none ∧
    (onChange ⟨false, true⟩ none ["appsscript.json"] (Except.ok [])).prompted
      = false ∧
    (onChange ⟨false, true⟩ none ["appsscript.json"] (Except.ok [])).pushInvoked
      = false ∧
    (onChange ⟨false, true⟩ none ["appsscript.json"] (Except.ok [])).output
      = ["Skipping push."] :=
  C3_noninteractive_declines ⟨false, true⟩ none ["appsscript.json"]
    (Except.ok []) (by decide) (by decide) (by decide)

/-- C4: when the gate declines (manifest batch, non-truthy force flag, and a
declined confirmation), the cycle prints the skip notice, signals stop, and
never invokes the push. -/
theorem C4_decline_skips_push (env : Env) (force : Option Bool)
    (paths : List String) (push : Except String (List PushedFile))
    (h1 : isManifestUpdated paths = true) (h2 : truthy force = false)
    (h3 : (confirmManifestUpdate env).1 = false) :
    (onChange env force paths push).output = ["Skipping push."] ∧
    continueSignal (onChange env force paths push) = false ∧
    (onChange env force paths push).pushInvoked = false := by
  have hr : onChange env force paths push =
      { force := some false, output := ["Skipping push."],
        prompted := (confirmManifestUpdate env).2,
        pushInvoked := false, ret := Except.ok none } := by
    simp [onChange, h1, h2, h3]
  rw [hr]
  simp [continueSignal, truthy]

/-- C4 witness: interactive environment where the user answers no. -/
theorem C4_decline_skips_push_witness :
    (onChange ⟨true, false⟩ (some false) ["appsscript.json"]
        (Except.ok [])).output = ["Skipping push."] ∧
    continueSignal (onChange ⟨true, false⟩ (some false) ["appsscript.json"]
        (Except.ok [])) = false ∧
    (onChange ⟨true, false⟩ (some false) ["appsscript.json"]
        (Except.ok [])).pushInvoked = false :=
  C4_decline_skips_push ⟨true, false⟩ (some false) ["appsscript.json"]
    (Except.ok []) (by decide) (by decide) (by decide)

/-- C10: on a batch with no manifest path the cycle's observable behavior —
prompting, push invocation, console output, and return value — is the same
for any two values of the force flag. -/
theorem C10_force_noninterference (env : Env) (f1 f2 : Option Bool)
    (paths : List String) (push : Except String (List PushedFile))
    (h : isManifestUpdated paths = false) :
    (onChange env f1 paths push).output = (onChange env f2 paths push).output ∧
    (onChange env f1 paths push).prompted
      = (onChange env f2 paths push).prompted ∧
    (onChange env f1 paths push).pushInvoked
      = (onChange env f2 paths push).pushInvoked ∧
    (onChange env f1 paths push).ret = (onChange env f2 paths push).ret := by
  rw [onChange_no_manifest env f1 paths push h,
    onChange_no_manifest env f2 paths push h]
  cases push <;> simp [runPush]

/-- C10 witness: force `some true` versus unset on a manifest-free batch. -/
theorem C10_force_noninterference_witness :
    (onChange ⟨true, true⟩ (some true) ["a.js"]
        (Except.ok [⟨"a.js"⟩])).output
      = (onChange ⟨true, true⟩ none ["a.js"]
          (Except.ok [⟨"a.js"⟩])).output ∧
    (onChange ⟨true, true⟩ (some true) ["a.js"]
        (Except.ok [⟨"a.js"⟩])).prompted
      = (onChange ⟨true, true⟩ none ["a.js"]
          (Except.ok [⟨"a.js"⟩])).prompted ∧
    (onChange ⟨true, true⟩ (some true) ["a.js"]
        (Except.ok [⟨"a.js"⟩])).pushInvoked
      = (onChange ⟨true, true⟩ none ["a.js"]
          (Except.ok [⟨"a.js"⟩])).pushInvoked ∧
    (onChange ⟨true, true⟩ (some true) ["a.js"]
        (Except.ok [⟨"a.js"⟩])).ret
      = (onChange ⟨true, true⟩ none ["a.js"]
          (Except.ok [⟨"a.js"⟩])).ret :=
  C10_force_noninterference ⟨true, true⟩ (some true) none ["a.js"]
    (Except.ok [⟨"a.js"⟩]) (by decide)

/-! ## The push and its report -/

/-- String append is associative (component lists concatenate). -/
theorem str_append_assoc (a b c : String) : (a ++ b) ++ c = a ++ (b ++ c) := by
  cases a with
  | mk da =>
    cases b with
    | mk db =>
      cases c with
      | mk dc => exact congrArg String.mk (List.append_assoc da db dc)

/-- The console lines of the push tail do not depend on the force flag or on
whether a prompt was shown before it. -/
theorem runPush_output_eq (f g : Option Bool) (p q : Bool)
    (push : Except String (List PushedFile)) :
    (runPush f p push).output = (runPush g q push).output := by
  cases push <;> simp [runPush]

/-- The result of the push tail does not depend on the force flag or on
whether a prompt was shown before it. -/
theorem runPush_ret_eq (f g : Option Bool) (p q : Bool)
    (push : Except String (List PushedFile)) :
    (runPush f p push).ret = (runPush g q push).ret := by
  cases push <;> simp [runPush]

/-- Any cycle that invoked the push has the push tail's console lines and
result. -/
theorem onChange_invoked_eq (env : Env) (force : Option Bool)
    (paths : List String) (push : Except String (List PushedFile))
    (h : (onChange env force paths push).pushInvoked = true) :
    (onChange env force paths push).output = (runPush none false push).output ∧
    (onChange env force paths push).ret = (runPush none false push).ret := by
  by_cases hg : (isManifestUpdated paths && !truthy force) = true
  · by_cases hc : (confirmManifestUpdate env).1 = true
    · have he : onChange env force paths push
          = runPush (some (confirmManifestUpdate env).1)
              (confirmManifestUpdate env).2 push := by
        simp [onChange, hg, hc]
      rw [he]
      exact ⟨runPush_output_eq _ _ _ _ _, runPush_ret_eq _ _ _ _ _⟩
    · rw [Bool.not_eq_true] at hc
      simp [onChange, hg, hc] at h
  · rw [Bool.not_eq_true] at hg
    have he : onChange env force paths push = runPush force false push := by
      simp [onChange, hg]
    rw [he]
    exact ⟨runPush_output_eq _ _ _ _ _, runPush_ret_eq _ _ _ _ _⟩

/-- C7: every cycle whose push succeeded with `files` reports the pluralized
count line followed by exactly one line per pushed file, in push order; the
count line reads `no files` for zero, `one file` for one, and the numeral
with `files` for more. -/
theorem C7_success_report (env : Env) (force : Option Bool)
    (paths : List String) (files : List PushedFile)
    (h : (onChange env force paths (Except.ok files)).pushInvoked = true) :
    (onChange env force paths (Except.ok files)).output
      = pushedCountMessage files.length :: files.map fileLine ∧
    pushedCountMessage 0 = "Pushed no files.." ∧
    pushedCountMessage 1 = "Pushed one file.." ∧
    (∀ n, 2 ≤ n →
      pushedCountMessage n = "Pushed " ++ toString n ++ " files.") := by
  refine ⟨?_, rfl, rfl, ?_⟩
  · have ho := (onChange_invoked_eq env force paths (Except.ok files) h).1
    rw [ho]
    simp [runPush]
  · intro n hn
    have h0 : ¬ n = 0 := by omega
    have h1 : ¬ n = 1 := by omega
    simp only [pushedCountMessage, h0, h1, ite_false, if_neg]
    rw [← str_append_assoc, str_append_assoc]
    rfl

/-- C7 witness: Scenario D — two plain files, force unset. -/
theorem C7_success_report_witness :
    (onChange ⟨true, false⟩ none ["a.js", "b.js"]
        (Except.ok [⟨"a.js"⟩, ⟨"b.js"⟩])).output
      = pushedCountMessage 2 :: [⟨"a.js"⟩, ⟨"b.js"⟩].map fileLine ∧
    pushedCountMessage 0 = "Pushed no files.." ∧
    pushedCountMessage 1 = "Pushed one file.." ∧
    (∀ n, 2 ≤ n →
      pushedCountMessage n = "Pushed " ++ toString n ++ " files.") :=
  C7_success_report ⟨true, false⟩ none ["a.js", "b.js"]
    [⟨"a.js"⟩, ⟨"b.js"⟩] (by decide)

/-- C8: a failing push propagates out of the cycle unchanged — the cycle
returns that very error and prints no success line at all. -/
theorem C8_push_error_propagates (env : Env) (force : Option Bool)
    (paths : List String) (e : String)
    (h : (onChange env force paths (Except.error e)).pushInvoked = true) :
    (onChange env force paths (Except.error e)).ret = Except.error e ∧
    (onChange env force paths (Except.error e)).output = [] := by
  obtain ⟨ho, hr⟩ := onChange_invoked_eq env force paths (Except.error e) h
  rw [ho, hr]
  exact ⟨rfl, rfl⟩

/-- C8 witness: a network error on a plain batch. -/
theorem C8_push_error_propagates_witness :
    (onChange ⟨true, false⟩ none ["a.js"]
        (Except.error "network error")).ret = Except.error "network error" ∧
    (onChange ⟨true, false⟩ none ["a.js"]
        (Except.error "network error")).output = [] :=
  C8_push_error_propagates ⟨true, false⟩ none ["a.js"] "network error"
    (by decide)

/-- C9: a push that returns no files is a success: the cycle prints the
zero-count line, returns `true`, signals continue, and in watch mode the
session remains subscribed — the loop goes on to process the remaining
batches. -/
theorem C9_empty_push_is_success (env : Env) (force : Option Bool)
    (paths : List String) (rest : List WatchStep)
    (h : (onChange env force paths (Except.ok [])).pushInvoked = true) :
    (onChange env force paths (Except.ok [])).output = ["Pushed no files.."] ∧
    (onChange env force paths (Except.ok [])).ret = Except.ok (some true) ∧
    continueSignal (onChange env force paths (Except.ok [])) = true ∧
    (runWatchLoop force
        ({ paths := paths, env := env, push := Except.ok [] } :: rest)).stopped
      = (runWatchLoop (onChange env force paths (Except.ok [])).force
          rest).stopped ∧
    (runWatchLoop force
        ({ paths := paths, env := env, push := Except.ok [] } :: rest)).processed
      = 1 + (runWatchLoop (onChange env force paths (Except.ok [])).force
          rest).processed := by
  obtain ⟨ho, hr⟩ := onChange_invoked_eq env force paths (Except.ok []) h
  have ho2 : (onChange env force paths (Except.ok [])).output
      = ["Pushed no files.."] := by rw [ho]; rfl
  have hr2 : (onChange env force paths (Except.ok [])).ret
      = Except.ok (some true) := by rw [hr]; rfl
  refine ⟨ho2, hr2, ?_, ?_, ?_⟩
  · simp [continueSignal, hr2, truthy]
  · simp [runWatchLoop, hr2, truthy]
  · simp [runWatchLoop, hr2, truthy]

/-- C9 witness: an up-to-date push delivered while watching, with one more
batch behind it. -/
theorem C9_empty_push_is_success_witness :
    (onChange ⟨true, false⟩ none ["a.js"] (Except.ok [])).output
      = ["Pushed no files.."] ∧
    (onChange ⟨true, false⟩ none ["a.js"] (Except.ok [])).ret
      = Except.ok (some true) ∧
    continueSignal (onChange ⟨true, false⟩ none ["a.js"] (Except.ok []))
      = true ∧
    (runWatchLoop none
        ({ paths := ["a.js"], env := ⟨true, false⟩, push := Except.ok [] }
          :: [⟨["b.js"], ⟨true, false⟩, Except.ok []⟩])).stopped
      = (runWatchLoop (onChange ⟨true, false⟩ none ["a.js"]
          (Except.ok [])).force [⟨["b.js"], ⟨true, false⟩, Except.ok []⟩]).stopped ∧
    (runWatchLoop none
        ({ paths := ["a.js"], env := ⟨true, false⟩, push := Except.ok [] }
          :: [⟨["b.js"], ⟨true, false⟩, Except.ok []⟩])).processed
      = 1 + (runWatchLoop (onChange ⟨true, false⟩ none ["a.js"]
          (Except.ok [])).force [⟨["b.js"], ⟨true, false⟩, Except.ok []⟩]).processed :=
  C9_empty_push_is_success ⟨true, false⟩ none ["a.js"]
    [⟨["b.js"], ⟨true, false⟩, Except.ok []⟩] (by decide)

/-! ## Monotonicity of the force flag -/

/-- A non-truthy force flag is either unset or explicitly false. -/
theorem truthy_false_cases (force : Option Bool) (h : truthy force = false) :
    force = none ∨ force = some false := by
  cases force with
  | none => exact Or.inl rfl
  | some b =>
      cases b with
      | false => exact Or.inr rfl
      | true => exact absurd h (by simp [truthy])

/-- A cycle can make the force flag truthy only out of a successful
interactive confirmation: the environment was interactive, the user
answered yes, and the prompt was actually shown. -/
theorem onChange_upgrade_needs_confirmation (env : Env) (force : Option Bool)
    (paths : List String) (push : Except String (List PushedFile))
    (h1 : truthy force = false)
    (h2 : truthy (onChange env force paths push).force = true) :
    env.interactive = true ∧ env.promptAnswer = true ∧
    (onChange env force paths push).prompted = true := by
  have hf := truthy_false_cases force h1
  by_cases hm : isManifestUpdated paths = true
  · by_cases hi : env.interactive = true
    · by_cases ha : env.promptAnswer = true
      · rcases hf with rfl | rfl <;> cases push <;>
          simp [onChange, hm, confirmManifestUpdate, hi, ha, runPush, truthy]
      · rw [Bool.not_eq_true] at ha
        exfalso
        rcases hf with rfl | rfl <;> cases push <;>
          simp [onChange, hm, confirmManifestUpdate, hi, ha, runPush,
            truthy] at h2
    · rw [Bool.not_eq_true] at hi
      exfalso
      rcases hf with rfl | rfl <;> cases push <;>
        simp [onChange, hm, confirmManifestUpdate, hi, runPush,
          truthy] at h2
  · rw [Bool.not_eq_true] at hm
    exfalso
    rw [onChange_no_manifest env force paths push hm] at h2
    rcases hf with rfl | rfl <;> cases push <;>
      simp [runPush, truthy] at h2

/-- A truthy force flag survives a whole watch session unchanged. -/
theorem runWatchLoop_force_truthy_persists (steps : List WatchStep)
    (force : Option Bool) (h : truthy force = true) :
    (runWatchLoop force steps).force = force := by
  induction steps generalizing force with
  | nil => simp [runWatchLoop]
  | cons step rest ih =>
      have hf := onChange_force_truthy_unchanged step.env force step.paths
        step.push h
      simp only [runWatchLoop]
      split
      · simpa using hf
      · split
        · have := ih (onChange step.env force step.paths step.push).force
            (by rw [hf]; exact h)
          simp only
          rw [this, hf]
        · simpa using hf

/-- C5: the force flag is monotone across a session — a cycle leaves a
truthy flag unchanged; it can turn a non-truthy flag truthy only through a
successful interactive confirmation; and once truthy the flag persists
through every remaining cycle of the watch session. -/
theorem C5_force_monotone (env : Env) (force : Option Bool)
    (paths : List String) (push : Except String (List PushedFile))
    (steps : List WatchStep) :
    (truthy force = true → (onChange env force paths push).force = force) ∧
    (truthy force = false →
      truthy (onChange env force paths push).force = true →
      env.interactive = true ∧ env.promptAnswer = true ∧
      (onChange env force paths push).prompted = true) ∧
    (truthy force = true → (runWatchLoop force steps).force = force) :=
  ⟨fun h => onChange_force_truthy_unchanged env force paths push h,
   fun h1 h2 => onChange_upgrade_needs_confirmation env force paths push h1 h2,
   fun h => runWatchLoop_force_truthy_persists steps force h⟩

/-- C5 witness: a truthy flag survives a manifest cycle, and an upgrade out
of an unset flag exhibits the interactive yes answer. -/
theorem C5_force_monotone_witness :
    (onChange ⟨true, true⟩ (some true) ["appsscript.json"]
        (Except.ok [])).force = some true ∧
    ((⟨true, true⟩ : Env).interactive = true ∧
      (⟨true, true⟩ : Env).promptAnswer = true ∧
      (onChange ⟨true, true⟩ none ["appsscript.json"]
          (Except.ok [])).prompted = true) ∧
    (runWatchLoop (some true)
        [⟨["appsscript.json"], ⟨false, false⟩, Except.ok []⟩]).force
      = some true :=
  ⟨(C5_force_monotone ⟨true, true⟩ (some true) ["appsscript.json"]
      (Except.ok []) []).1 rfl,
   (C5_force_monotone ⟨true, true⟩ none ["appsscript.json"]
      (Except.ok []) []).2.1 rfl (by decide),
   (C5_force_monotone ⟨false, false⟩ (some true) ["appsscript.json"]
      (Except.ok [])
      [⟨["appsscript.json"], ⟨false, false⟩, Except.ok []⟩]).2.2 rfl⟩

/-! ## The command action and the watch session -/

/-- C6: with an empty pending change set the command runs no initial cycle —
so no push there — and its output starts with the up-to-date notice, which
is the entire output when watch mode was not requested. -/
theorem C6_empty_pending_up_to_date (inp : CommandInput)
    (h : inp.pendingChanges = []) :
    (runCommand inp).initCycle = none ∧
    (inp.watch = false →
      (runCommand inp).output = ["Script is already up to date."]) ∧
    (∃ rest, (runCommand inp).output
      = "Script is already up to date." :: rest) := by
  cases hw : inp.watch with
  | false =>
      refine ⟨?_, ?_, ?_⟩ <;> simp [runCommand, h, hw]
  | true =>
      refine ⟨?_, ?_, ?_⟩
      · simp [runCommand, h, hw]
      · intro hfw
        exact absurd hfw (by simp)
      · refine ⟨(runWatchLoop inp.force inp.steps).output, ?_⟩
        simp [runCommand, h, hw]

/-- A run with no pending changes and no watch flag. -/
def c6Input : CommandInput :=
  { watch := false, force := none, pendingChanges := [],
    initEnv := { interactive := true, promptAnswer := false },
    initPush := Except.ok [], steps := [] }

/-- C6 witness: no pending changes, no watch flag. -/
theorem C6_empty_pending_up_to_date_witness :
    (runCommand c6Input).initCycle = none ∧
    (runCommand c6Input).output = ["Script is already up to date."] :=
  ⟨(C6_empty_pending_up_to_date c6Input rfl).1,
   (C6_empty_pending_up_to_date c6Input rfl).2.1 rfl⟩

/-- A session whose declined initial cycle nonetheless keeps watching: the
pending set touches the manifest, the environment is non-interactive, and
one more batch arrives after the subscription. -/
def c1Input : CommandInput :=
  { watch := true, force := none,
    pendingChanges := [{ localPath := "appsscript.json" }],
    initEnv := { interactive := false, promptAnswer := false },
    initPush := Except.ok [],
    steps := [{ paths := ["a.js"],
                env := { interactive := false, promptAnswer := false },
                push := Except.ok [{ localPath := "a.js" }] }] }

/-- C1 counterexample: on `c1Input` the initial cycle is declined (skip
notice, no push, falsy return), yet the command still subscribes and the
next delivered batch is processed and pushed — the session did not stop. -/
theorem C1_counterexample :
    (runCommand c1Input).initCycle
      = some { force := some false, output := ["Skipping push."],
               prompted := false, pushInvoked := false,
               ret := Except.ok none } ∧
    (runCommand c1Input).subscribed = true ∧
    (runCommand c1Input).watchOutcome
      = some { force := some false,
               output := ["Pushed one file..", "└─ a.js"],
               processed := 1, stopped := false, err := none } := by
  refine ⟨?_, ?_, ?_⟩ <;> rfl

/-- C1 (amended): once the subscription exists, a declined cycle on a
delivered batch calls `stopWatching` and no later batch of the session is
processed. -/
theorem C1_watch_decline_stops (force : Option Bool) (step : WatchStep)
    (rest : List WatchStep)
    (h : (onChange step.env force step.paths step.push).ret = Except.ok none) :
    (runWatchLoop force (step :: rest)).stopped = true ∧
    (runWatchLoop force (step :: rest)).processed = 1 := by
  simp [runWatchLoop, h, truthy]

/-- C1 witness: a non-interactive manifest batch delivered while watching
stops the session even with one more batch pending behind it. -/
theorem C1_watch_decline_stops_witness :
    (runWatchLoop none
        [⟨["appsscript.json"], ⟨false, false⟩, Except.ok []⟩,
         ⟨["b.js"], ⟨false, false⟩, Except.ok []⟩]).stopped = true ∧
    (runWatchLoop none
        [⟨["appsscript.json"], ⟨false, false⟩, Except.ok []⟩,
         ⟨["b.js"], ⟨false, false⟩, Except.ok []⟩]).processed = 1 :=
  C1_watch_decline_stops none ⟨["appsscript.json"], ⟨false, false⟩, Except.ok []⟩
    [⟨["b.js"], ⟨false, false⟩, Except.ok []⟩] (by decide)

end ClaspPush
